import Mathlib

/-!
Verification development for the HK Job Fair Aggregator scraper core.

The definitions below are a shallow embedding of the Python sources:
  hk_job_fair_aggregator/scrapers/scraper_types.py
  hk_job_fair_aggregator/scrapers/base.py
  hk_job_fair_aggregator/models/job_fair.py
  hk_job_fair_aggregator/utils/anti_scrape.py
Pure functions are translated directly; the effectful run pipeline is
modelled with explicit `Except` values for steps that can raise, and with
explicit state passing for the browser-session field.  Python `str` is
modelled by Lean `String` (operations implemented over `List Char` so that
everything evaluates in the kernel).  The external fuzzy-match helper
`is_duplicate_event` lives in `utils/normalizer.py`, which is not part of
the provided sources; it is modelled from the spec where needed.
-/

namespace HKJF

/-- Embedding of `ScraperType` from `scrapers/scraper_types.py`. -/
inductive ScraperType
  | STATIC
  | DYNAMIC
  | API
deriving DecidableEq

/-- Embedding of `UpdateFrequency` from `scrapers/scraper_types.py`. -/
inductive UpdateFrequency
  | HOURLY
  | DAILY
  | WEEKLY
  | MONTHLY
  | CUSTOM
deriving DecidableEq

/-- Embedding of `BaseScraper.should_update` (base.py lines 448-492).
The directory scan for the most-recently-modified prior output file is
abstracted into `latest`: `none` when no prior output file exists for the
source, `some t` for the modification time (in seconds) of the newest one.
`now` is the current time in seconds; the Python code compares
timezone-aware datetimes, i.e. elapsed seconds.  The chain of `if`s,
including the final default `return True`, mirrors the source. -/
def should_update (freq : UpdateFrequency) (latest : Option Int) (now : Int) : Bool :=
  match latest with
  | none => true
  | some last =>
    if freq = UpdateFrequency.HOURLY then decide (now - last > 3600)
    else if freq = UpdateFrequency.DAILY then decide (now - last > 86400)
    else if freq = UpdateFrequency.WEEKLY then decide (now - last > 604800)
    else if freq = UpdateFrequency.MONTHLY then decide (now - last > 2592000)
    else if freq = UpdateFrequency.CUSTOM then true
    else true

/-- Embedding of the loop in `BaseScraper.deduplicate_events` (base.py
lines 381-404) for a given total duplicate check.  The Python code calls
`is_duplicate_event(event, existing_events)` (which returns a pair whose
first component is the duplicate flag); `check` is that call with the
existing set already fixed.  Returns the kept events in input order and
the duplicate count. -/
def deduplicate_events (check : α → Bool) : List α → List α × Nat
  | [] => ([], 0)
  | e :: rest =>
    let r := deduplicate_events check rest
    if check e then (r.1, r.2 + 1) else (e :: r.1, r.2)

/-- Modelled from the spec: `is_duplicate_event` is defined in
`utils/normalizer.py`, which is not among the provided source files.  Per
spec section 4.4 it compares a new item against the full existing set using
an external equivalence check ("name/venue/time-based fuzzy match"),
reporting whether any existing item matches.  The equivalence check is the
parameter `eqv`. -/
def is_duplicate_event (eqv : α → α → Bool) (e : α) (existing : List α) : Bool :=
  existing.any (eqv e)

/-- Observable behaviour of a fetch variant before any network access:
either the method raises a usage `ValueError`, or it goes on to touch the
network. -/
inductive FetchPrelude
  | usageError (msg : String)
  | networkAccess
deriving DecidableEq

/-- Pre-network phase of `BaseScraper.get_page` (base.py lines 162-209):
the method body performs no `scraper_type` check at all; its first actions
are logging, header generation and the HTTP request. -/
def get_page_check (_t : ScraperType) : FetchPrelude :=
  FetchPrelude.networkAccess

/-- Pre-network phase of `BaseScraper.get_dynamic_page` (base.py lines
211-224): raises `ValueError` when the scraper is not DYNAMIC, before any
navigation happens. -/
def get_dynamic_page_check (t : ScraperType) : FetchPrelude :=
  if t ≠ ScraperType.DYNAMIC then
    FetchPrelude.usageError "This method is only available for DYNAMIC scrapers"
  else FetchPrelude.networkAccess

/-- Pre-network phase of `BaseScraper.get_api_data` (base.py lines
260-273): raises `ValueError` when the scraper is not API, before any
request is made. -/
def get_api_data_check (t : ScraperType) : FetchPrelude :=
  if t ≠ ScraperType.API then
    FetchPrelude.usageError "This method is only available for API scrapers"
  else FetchPrelude.networkAccess

/-! String helpers.  Python string primitives are modelled over `List Char`
so the kernel can evaluate them; all values in this repository are ASCII. -/

/-- Model of Python whitespace as stripped by `str.strip()` (ASCII part). -/
def isPyWs (c : Char) : Bool :=
  c = ' ' ∨ c = '\t' ∨ c = '\n' ∨ c = '\r' ∨ c = '\x0b' ∨ c = '\x0c'

/-- Model of Python `str.strip()` with no arguments. -/
def pyStrip (s : String) : String :=
  String.mk (((s.toList.dropWhile isPyWs).reverse.dropWhile isPyWs).reverse)

/-- Model of Python `str.upper()` (ASCII). -/
def pyUpper (s : String) : String :=
  String.mk (s.toList.map Char.toUpper)

/-- Model of Python `str.lower()` (ASCII). -/
def pyLower (s : String) : String :=
  String.mk (s.toList.map Char.toLower)

/-- Whether a character occurs in a string: Python `c in v`. -/
def hasChar (s : String) (c : Char) : Bool :=
  s.toList.contains c

/-- Whether `needle` is a leading segment of `hay`: Python `str.startswith`. -/
def leadsWith : List Char → List Char → Bool
  | [], _ => true
  | _ :: _, [] => false
  | a :: xs, b :: ys => a == b && leadsWith xs ys

/-- Whether `needle` occurs as a contiguous segment of the second list:
Python `needle in hay` for strings. -/
def hasSub (needle : List Char) : List Char → Bool
  | [] => needle.isEmpty
  | c :: rest => leadsWith needle (c :: rest) || hasSub needle rest

/-- Model of Python `int(s)` for a decimal string: optional surrounding
whitespace, optional sign, at least one digit; anything else raises
`ValueError`, modelled as `none`.  (Underscore digit grouping is not
modelled.) -/
def pyInt (s : String) : Option Int :=
  let t := (s.toList.dropWhile isPyWs).reverse.dropWhile isPyWs |>.reverse
  let (neg, digits) :=
    match t with
    | '-' :: rest => (true, rest)
    | '+' :: rest => (false, rest)
    | rest => (false, rest)
  if digits ≠ [] ∧ digits.all Char.isDigit then
    let n : Nat := digits.foldl (fun acc c => acc * 10 + (c.toNat - 48)) 0
    some (if neg then -(n : Int) else (n : Int))
  else none

/-! Model of the datetime values handled by `JobFairEvent.validate_datetime`
(models/job_fair.py lines 50-73).  `datetime.fromisoformat` is modelled for
the strict CPython grammar `YYYY-MM-DD[<sep>HH[:MM[:SS]][±HH:MM]]` (one
arbitrary separator character; fractional seconds and offsets with a
seconds part are not modelled).  `pytz.timezone('Asia/Hong_Kong')` is
modelled as the fixed +08:00 offset it assigns to all modern dates. -/

/-- A parsed Python `datetime`; `tzOffsetMinutes` is `none` for a naive
value and `some m` for an aware value with UTC offset `m` minutes. -/
structure PyDateTime where
  year : Nat
  month : Nat
  day : Nat
  hour : Nat
  minute : Nat
  second : Nat
  tzOffsetMinutes : Option Int
deriving DecidableEq

/-- Numeric value of an ASCII digit character. -/
def digitVal (c : Char) : Nat := c.toNat - 48

/-- Parse exactly two ASCII digits. -/
def parse2 : List Char → Option (Nat × List Char)
  | a :: b :: rest =>
    if a.isDigit ∧ b.isDigit then some (digitVal a * 10 + digitVal b, rest) else none
  | _ => none

/-- Parse exactly four ASCII digits. -/
def parse4 : List Char → Option (Nat × List Char)
  | a :: b :: c :: d :: rest =>
    if a.isDigit ∧ b.isDigit ∧ c.isDigit ∧ d.isDigit then
      some (digitVal a * 1000 + digitVal b * 100 + digitVal c * 10 + digitVal d, rest)
    else none
  | _ => none

/-- Gregorian leap year, as used by Python's `datetime` calendar. -/
def isLeap (y : Nat) : Bool :=
  (y % 4 = 0 ∧ y % 100 ≠ 0) ∨ y % 400 = 0

/-- Days in a month of the proleptic Gregorian calendar. -/
def daysInMonth (y m : Nat) : Nat :=
  if m = 2 then (if isLeap y then 29 else 28)
  else if m = 4 ∨ m = 6 ∨ m = 9 ∨ m = 11 then 30
  else 31

/-- Parse the `YYYY-MM-DD` date part, validating calendar ranges as
`datetime` does (`MINYEAR = 1`). -/
def parseDate (l : List Char) : Option (Nat × Nat × Nat × List Char) :=
  match parse4 l with
  | none => none
  | some (y, r1) =>
    match r1 with
    | '-' :: r2 =>
      match parse2 r2 with
      | none => none
      | some (m, r3) =>
        match r3 with
        | '-' :: r4 =>
          match parse2 r4 with
          | none => none
          | some (d, r5) =>
            if 1 ≤ y ∧ 1 ≤ m ∧ m ≤ 12 ∧ 1 ≤ d ∧ d ≤ daysInMonth y m then
              some (y, m, d, r5)
            else none
        | _ => none
    | _ => none

/-- Parse the `HH[:MM[:SS]]` time part with range checks. -/
def parseTime (l : List Char) : Option (Nat × Nat × Nat × List Char) :=
  match parse2 l with
  | none => none
  | some (h, r1) =>
    if h ≥ 24 then none
    else
      match r1 with
      | ':' :: r2 =>
        match parse2 r2 with
        | none => none
        | some (mi, r3) =>
          if mi ≥ 60 then none
          else
            match r3 with
            | ':' :: r4 =>
              match parse2 r4 with
              | none => none
              | some (se, r5) => if se ≥ 60 then none else some (h, mi, se, r5)
            | rest => some (h, mi, 0, rest)
      | rest => some (h, 0, 0, rest)

/-- Parse the `HH:MM` body of a UTC offset (the sign is consumed by the
caller); a `datetime.timezone` offset must be strictly within 24 hours. -/
def parseOffsetHM (l : List Char) : Option (Nat × Nat) :=
  match parse2 l with
  | none => none
  | some (oh, r1) =>
    if oh ≥ 24 then none
    else
      match r1 with
      | ':' :: r2 =>
        match parse2 r2 with
        | none => none
        | some (om, r3) =>
          if om ≥ 60 then none
          else match r3 with
            | [] => some (oh, om)
            | _ => none
      | _ => none

/-- Model of CPython `datetime.fromisoformat` on the strict grammar
described above; `none` models a raised `ValueError`. -/
def fromisoformat (s : String) : Option PyDateTime :=
  match parseDate s.toList with
  | none => none
  | some (y, m, d, rest) =>
    match rest with
    | [] => some ⟨y, m, d, 0, 0, 0, none⟩
    | _sep :: r1 =>
      match parseTime r1 with
      | none => none
      | some (h, mi, se, r2) =>
        match r2 with
        | [] => some ⟨y, m, d, h, mi, se, none⟩
        | c :: r3 =>
          if c = '+' ∨ c = '-' then
            match parseOffsetHM r3 with
            | none => none
            | some (oh, om) =>
              let mins : Int := (oh * 60 + om : Nat)
              some ⟨y, m, d, h, mi, se, some (if c = '-' then -mins else mins)⟩
          else none

/-- Model of `pytz.timezone('Asia/Hong_Kong').localize(dt)` applied when
`dt.tzinfo is None`: attaches the fixed +08:00 Hong Kong offset (480
minutes); an already-aware value is left alone. -/
def hkLocalize (dt : PyDateTime) : PyDateTime :=
  match dt.tzOffsetMinutes with
  | none => { dt with tzOffsetMinutes := some 480 }
  | some _ => dt

/-- Two-digit zero-padded decimal rendering, as in `%02d` (fields are at
most two digits here). -/
def pad2 (n : Nat) : String :=
  String.mk [Char.ofNat (48 + n / 10 % 10), Char.ofNat (48 + n % 10)]

/-- Four-digit zero-padded decimal rendering for the year. -/
def pad4 (n : Nat) : String :=
  String.mk [Char.ofNat (48 + n / 1000 % 10), Char.ofNat (48 + n / 100 % 10),
             Char.ofNat (48 + n / 10 % 10), Char.ofNat (48 + n % 10)]

/-- Model of `datetime.isoformat()` (default 'T' separator; zero
microseconds are omitted by Python and not modelled; an aware value gets a
`±HH:MM` suffix). -/
def isoformat (dt : PyDateTime) : String :=
  pad4 dt.year ++ "-" ++ pad2 dt.month ++ "-" ++ pad2 dt.day ++ "T" ++
  pad2 dt.hour ++ ":" ++ pad2 dt.minute ++ ":" ++ pad2 dt.second ++
  (match dt.tzOffsetMinutes with
   | none => ""
   | some off =>
     (if off < 0 then "-" else "+") ++ pad2 (off.natAbs / 60) ++ ":" ++ pad2 (off.natAbs % 60))

/-- Model of `v.replace('Z', '+00:00')`: every literal `Z` is replaced. -/
def replaceZ : List Char → List Char
  | [] => []
  | 'Z' :: rest => '+' :: '0' :: '0' :: ':' :: '0' :: '0' :: replaceZ rest
  | c :: rest => c :: replaceZ rest

/-- Embedding of the `validate_datetime` validator of `JobFairEvent`
(models/job_fair.py lines 50-73): empty values pass through; values
containing both `'T'` and `'+'` pass through unchanged; otherwise the value
(with every `Z` replaced by `+00:00`) is parsed with `fromisoformat`, a
naive result is localized to Hong Kong, and the result re-serialized with
`isoformat`; on a parse failure a 10-character hyphenated value gets
`T00:00:00+08:00` appended, and anything else passes through unchanged. -/
def py_validate_datetime (v : String) : String :=
  if v = "" then v
  else if hasChar v 'T' ∧ hasChar v '+' then v
  else
    match fromisoformat (String.mk (replaceZ v.toList)) with
    | some dt => isoformat (hkLocalize dt)
    | none =>
      if v.length = 10 ∧ hasChar v '-' then v ++ "T00:00:00+08:00"
      else v

/-! Embedding of the `JobFairEvent` Pydantic model (models/job_fair.py)
restricted to the fields the verified claims touch: the seven required
fields plus `language` and `status`.  The remaining optional fields have
independent validators and do not interact with these claims; Pydantic's
`extra = 'ignore'` drops unknown keys. -/

/-- A raw scraped mapping, as handed to `BaseScraper.validate_event`.
`none` models a key that is absent (or present with `None`, which every
relevant code path treats the same way). -/
structure RawEvent where
  event_name : Option String
  start_datetime : Option String
  venue_name : Option String
  organizer_name : Option String
  event_type : Option String
  source_id : Option String
  source_name : Option String
  language : Option String
  status : Option String
deriving DecidableEq

/-- A successfully constructed `JobFairEvent` (modelled fields). -/
structure JobFairEvent where
  event_name : String
  start_datetime : String
  venue_name : String
  organizer_name : String
  event_type : String
  source_id : String
  source_name : String
  language : String
  status : String
deriving DecidableEq

/-- The fixed language set of the `validate_language` validator. -/
def validLanguages : List String := ["ZH-HK", "EN", "BOTH"]

/-- The fixed status set of the `validate_status` validator. -/
def validStatuses : List String := ["UPCOMING", "ONGOING", "PAST", "CANCELLED"]

/-- The `validate_language` validator (models/job_fair.py lines 102-108):
a truthy value whose upper-case form is in the valid set is kept
upper-cased, anything else becomes the default `ZH-HK`; an absent field
takes the Pydantic default `ZH-HK` directly. -/
def clampLanguage : Option String → String
  | none => "ZH-HK"
  | some v => if v ≠ "" ∧ pyUpper v ∈ validLanguages then pyUpper v else "ZH-HK"

/-- The `validate_status` validator (models/job_fair.py lines 110-116),
defaulting to `UPCOMING`. -/
def clampStatus : Option String → String
  | none => "UPCOMING"
  | some v => if v ≠ "" ∧ pyUpper v ∈ validStatuses then pyUpper v else "UPCOMING"

/-- The `validate_required_text` validator (models/job_fair.py lines
75-80): raises (`none`) when the field is absent or empty after stripping,
otherwise yields the stripped text. -/
def requiredText : Option String → Option String
  | none => none
  | some v => let t := pyStrip v; if t = "" then none else some t

/-- Embedding of `JobFairEvent(**event_data)`: `none` models a raised
`ValidationError`.  The three required text fields go through
`validate_required_text`; `start_datetime` is required and normalized by
`validate_datetime` (which never raises); `event_type`, `source_id` and
`source_name` are required with no validator; `language` and `status` are
clamped to their fixed sets. -/
def mkJobFairEvent (e : RawEvent) : Option JobFairEvent :=
  match requiredText e.event_name, e.start_datetime, requiredText e.venue_name,
        requiredText e.organizer_name, e.event_type, e.source_id, e.source_name with
  | some en, some sd, some vn, some org, some et, some sid, some sn =>
    some { event_name := en, start_datetime := py_validate_datetime sd,
           venue_name := vn, organizer_name := org, event_type := et,
           source_id := sid, source_name := sn,
           language := clampLanguage e.language, status := clampStatus e.status }
  | _, _, _, _, _, _, _ => none

/-- Model of `event_model.dict(exclude_none=True)` restricted to the
modelled fields (all of which are non-None strings after construction). -/
def JobFairEvent.toRaw (j : JobFairEvent) : RawEvent :=
  { event_name := some j.event_name, start_datetime := some j.start_datetime,
    venue_name := some j.venue_name, organizer_name := some j.organizer_name,
    event_type := some j.event_type, source_id := some j.source_id,
    source_name := some j.source_name, language := some j.language,
    status := some j.status }

/-- Python falsiness of an optional string field, as in
`'event_name' not in event_data or not event_data['event_name']`. -/
def pyFalsy : Option String → Bool
  | none => true
  | some s => s = ""

/-- The in-place repair step of `BaseScraper.validate_event` (base.py lines
427-438): each of the four required-but-falsy fields is overwritten with
its synthesized default; `name` is the scraper's source name and `nowIso`
is `datetime.now(pytz.timezone('Asia/Hong_Kong')).isoformat()`. -/
def fixEvent (name nowIso : String) (e : RawEvent) : RawEvent :=
  { e with
    event_name :=
      if pyFalsy e.event_name then some ("Unknown Event (" ++ name ++ ")") else e.event_name,
    start_datetime :=
      if pyFalsy e.start_datetime then some nowIso else e.start_datetime,
    venue_name :=
      if pyFalsy e.venue_name then some "To be announced" else e.venue_name,
    organizer_name :=
      if pyFalsy e.organizer_name then some name else e.organizer_name }

/-- Embedding of `BaseScraper.validate_event` (base.py lines 406-446):
strict construction; on failure, in-place repair of the four required
fields and one retry; on a second failure the (repaired) mapping itself is
returned.  The function is total: no exception escapes it. -/
def validate_event (name nowIso : String) (e : RawEvent) : RawEvent :=
  match mkJobFairEvent e with
  | some j => j.toRaw
  | none =>
    let e2 := fixEvent name nowIso e
    match mkJobFairEvent e2 with
    | some j => j.toRaw
    | none => e2

/-! Embedding of `BaseScraper.run` (base.py lines 504-557).  Effects are
made explicit: each fallible step is an `Except String` value supplied in
`RunEnv` (`error` models a raised exception), and the Selenium driver
field is threaded as an `Option Unit` (alive session or `None`). -/

/-- The external inputs and effect outcomes of one `run` invocation. -/
structure RunEnv where
  sourceName : String
  nowIso : String
  initResult : Except String Unit
  scrapeResult : Except String (List RawEvent)
  existing : List RawEvent
  dupCheck : RawEvent → List RawEvent → Except String Bool
  persistResult : List RawEvent → Except String String

/-- The `deduplicate_events` loop when the duplicate check itself may
raise (the external `is_duplicate_event` call inside `run`'s try block);
the first raising element aborts the loop. -/
def deduplicate_eventsE (check : α → Except String Bool) : List α → Except String (List α × Nat)
  | [] => Except.ok ([], 0)
  | e :: rest =>
    match check e with
    | Except.error msg => Except.error msg
    | Except.ok b =>
      match deduplicate_eventsE check rest with
      | Except.error msg => Except.error msg
      | Except.ok (ks, d) =>
        if b then Except.ok (ks, d + 1) else Except.ok (e :: ks, d)

/-- The lazy driver initialization at the top of `run`'s try block
(base.py lines 520-521): only a DYNAMIC scraper without a live session
calls `init_selenium_driver`, whose failure re-raises. -/
def tryInit (t : ScraperType) (driver : Option Unit) (env : RunEnv) :
    Except String (Option Unit) :=
  if t = ScraperType.DYNAMIC ∧ driver = none then
    match env.initResult with
    | Except.ok _ => Except.ok (some ())
    | Except.error msg => Except.error msg
  else Except.ok driver

/-- The body of `run`'s try block after driver initialization: scrape,
validate every event (per-event validation is wrapped in its own
try/except in the source, and `validate_event` is total anyway),
deduplicate against the existing data, persist when something new is
left.  `ok none` is the "No new events to save" exit. -/
def pipeline (env : RunEnv) : Except String (Option String) :=
  match env.scrapeResult with
  | Except.error msg => Except.error msg
  | Except.ok events =>
    let validated := events.map (validate_event env.sourceName env.nowIso)
    match deduplicate_eventsE (fun e => env.dupCheck e env.existing) validated with
    | Except.error msg => Except.error msg
    | Except.ok (kept, _dups) =>
      if kept.isEmpty then Except.ok none
      else
        match env.persistResult kept with
        | Except.error msg => Except.error msg
        | Except.ok p => Except.ok (some p)

/-- Embedding of `BaseScraper.run`: the schedule gate is checked before
the try block (so a skip leaves the driver untouched), every exception in
the body is caught and mapped to `none`, and the finally block closes the
Selenium driver (leaving the field `None`) whenever the scraper is
DYNAMIC.  Returns the `Optional[str]` result and the driver field's final
value. -/
def runScraper (freq : UpdateFrequency) (latest : Option Int) (now : Int)
    (t : ScraperType) (driver : Option Unit) (env : RunEnv) :
    Option String × Option Unit :=
  if should_update freq latest now = false then (none, driver)
  else
    let initR := tryInit t driver env
    let result : Except String (Option String) :=
      match initR with
      | Except.error msg => Except.error msg
      | Except.ok _ => pipeline env
    let driverAfterBody := match initR with
      | Except.ok d => d
      | Except.error _ => driver
    let res := match result with
      | Except.ok r => r
      | Except.error _ => none
    (res, if t = ScraperType.DYNAMIC then none else driverAfterBody)

/-! Embedding of `is_rate_limited` (utils/anti_scrape.py lines 197-237). -/

/-- An HTTP response as `is_rate_limited` observes it: status code, header
mapping and body text.  `requests` exposes headers case-insensitively. -/
structure Response where
  status_code : Nat
  headers : List (String × String)
  text : String
deriving DecidableEq

/-- Case-insensitive header lookup, as in `requests.structures`'s
`CaseInsensitiveDict` (both `h in response.headers` and
`response.headers.get`). -/
def headerGet (hs : List (String × String)) (k : String) : Option String :=
  (hs.find? (fun p => pyLower p.1 == pyLower k)).map (fun p => p.2)

/-- The fixed rate-limit header names checked by `is_rate_limited`. -/
def rlHeaderNames : List String :=
  ["X-RateLimit-Remaining", "RateLimit-Remaining", "X-Rate-Limit-Remaining"]

/-- The fixed blocking phrases checked by `is_rate_limited`. -/
def blockPhrases : List String :=
  ["rate limit", "too many requests", "access denied", "blocked", "captcha"]

/-- Model of `BeautifulSoup(html, 'lxml').get_text()`: the markup with
every `<...>` tag removed (entity decoding and script handling are not
modelled; the verified inputs contain none).  The boolean tracks whether
the scan position is inside a tag. -/
def stripTags : List Char → Bool → List Char
  | [], _ => []
  | c :: rest, true => stripTags rest (c != '>')
  | c :: rest, false =>
    if c = '<' then stripTags rest true else c :: stripTags rest false

/-- The rendered, lower-cased page text of a response. -/
def pageText (r : Response) : String :=
  pyLower (String.mk (stripTags r.text.toList false))

/-- The HTML-content phrase check at the end of `is_rate_limited`
(anti_scrape.py lines 223-235): only responses whose Content-Type starts
with `text/html` are scanned for the blocking phrases. -/
def contentCheck (r : Response) : Bool :=
  if leadsWith "text/html".toList ((headerGet r.headers "Content-Type").getD "").toList then
    blockPhrases.any (fun p => hasSub p.toList (pageText r).toList)
  else false

/-- The header loop of `is_rate_limited` (anti_scrape.py lines 218-220):
for each name present, `int(value)` is computed — a non-integer value
raises `ValueError` out of the function (`none`); the value 0 short-cuts
to `true`. -/
def checkHeaders (hs : List (String × String)) : List String → Option Bool
  | [] => some false
  | n :: rest =>
    match headerGet hs n with
    | none => checkHeaders hs rest
    | some v =>
      match pyInt v with
      | none => none
      | some k => if k = 0 then some true else checkHeaders hs rest

/-- Embedding of `is_rate_limited`: status check, then the header loop,
then the HTML phrase check.  `none` models an escaped `ValueError` from
`int()` on a malformed rate-limit header value. -/
def is_rate_limited (r : Response) : Option Bool :=
  if r.status_code = 429 ∨ r.status_code = 403 then some true
  else
    match checkHeaders r.headers rlHeaderNames with
    | none => none
    | some true => some true
    | some false => some (contentCheck r)

/-- Whether a rate-limit header is present whose value parses as the
integer 0 — what the code's header loop actually detects. -/
def headerZero (hs : List (String × String)) (n : String) : Bool :=
  match headerGet hs n with
  | some v => pyInt v == some 0
  | none => false

/-- The classification the claim describes, word for word: status 429/403,
or a rate-limit header present with the exact value "0", or an HTML body
containing a blocking phrase — a total Boolean predicate. -/
def claimed_rate_limited (r : Response) : Bool :=
  (r.status_code == 429 || r.status_code == 403)
  || rlHeaderNames.any (fun n => headerGet r.headers n == some "0")
  || contentCheck r

/-- The classification the code actually computes (on responses whose
rate-limit header values are well-formed integers): the header test is
"parses as integer 0" rather than the literal string "0". -/
def amended_rate_limited (r : Response) : Bool :=
  (r.status_code == 429 || r.status_code == 403)
  || rlHeaderNames.any (headerZero r.headers)
  || contentCheck r

/-! Concrete fixtures used by counterexamples and witnesses. -/

/-- A raw mapping with every field absent. -/
def emptyRaw : RawEvent :=
  ⟨none, none, none, none, none, none, none, none, none⟩

/-- A fixed Hong Kong timestamp standing in for `datetime.now(...)`. -/
def nowIso0 : String := "2025-01-01T12:00:00+08:00"

/-- A raw mapping whose four repairable fields are present and truthy but
whose required `event_type`, `source_id` and `source_name` are missing, so
both construction attempts fail and the mapping is returned as-is, still
carrying out-of-set `language` and `status` values. -/
def eBad : RawEvent :=
  ⟨some "A Fair", some "2024-03-15", some "Venue", some "Org",
   none, none, none, some "XX", some "??"⟩

/-- A raw mapping that passes strict construction. -/
def eGood : RawEvent :=
  ⟨some " A Fair ", some "2024-03-15T10:00:00+08:00", some "Venue", some "Org",
   some "job_fair", some "src1", some "Source One", some "en", none⟩

/-- The record strict construction yields on `eGood`. -/
def jGood : JobFairEvent :=
  ⟨"A Fair", "2024-03-15T10:00:00+08:00", "Venue", "Org",
   "job_fair", "src1", "Source One", "EN", "UPCOMING"⟩

/-- A 429 response. -/
def resp429 : Response := ⟨429, [], ""⟩

/-- A 200 HTML response whose body contains "Too Many Requests". -/
def respHtml : Response :=
  ⟨200, [("Content-Type", "text/html; charset=utf-8")],
   "<html><body>Too Many Requests</body></html>"⟩

/-- A normal 200 JSON response with no blocking phrases. -/
def respJson : Response :=
  ⟨200, [("Content-Type", "application/json")], "payload"⟩

/-- A 200 JSON response whose rate-limit header holds "00": the code
treats it as rate-limited, the claim's exact-string test does not. -/
def respZeroPad : Response :=
  ⟨200, [("X-RateLimit-Remaining", "00"), ("Content-Type", "application/json")], "payload"⟩

/-- A 200 response whose rate-limit header holds a non-integer: `int()`
raises and `is_rate_limited` is not total there. -/
def respBadHeader : Response :=
  ⟨200, [("X-RateLimit-Remaining", "abc")], "payload"⟩

/-- Well-formedness of a response's rate-limit headers: every one that is
present parses as an integer, so the code's `int()` calls cannot raise. -/
def headersParseable (hs : List (String × String)) : Bool :=
  rlHeaderNames.all (fun n =>
    match headerGet hs n with
    | some v => (pyInt v).isSome
    | none => true)

/-- A run environment whose scrape step raises. -/
def envScrapeFail : RunEnv :=
  { sourceName := "Source One", nowIso := nowIso0,
    initResult := Except.ok (), scrapeResult := Except.error "boom",
    existing := [], dupCheck := fun _ _ => Except.ok false,
    persistResult := fun _ => Except.ok "data/out.json" }

/-! Helper lemmas. -/

/-- The deduplication loop keeps exactly the non-duplicates, in order, and
counts the rest. -/
theorem deduplicate_events_eq (check : α → Bool) (l : List α) :
    deduplicate_events check l = (l.filter (fun e => !check e), l.countP check) := by
  induction l with
  | nil => rfl
  | cons e rest ih =>
    simp only [deduplicate_events, ih, List.filter_cons, List.countP_cons]
    cases h : check e <;> simp [h]

/-- A successfully constructed record carries the clamped language and
status of its input. -/
theorem mk_fields (e : RawEvent) (j : JobFairEvent) (h : mkJobFairEvent e = some j) :
    j.language = clampLanguage e.language ∧ j.status = clampStatus e.status := by
  unfold mkJobFairEvent at h
  split at h
  · injection h with h2
    subst h2
    exact ⟨rfl, rfl⟩
  · exact absurd h (by simp)

/-- The clamped language is always in the fixed set. -/
theorem clampLanguage_mem (x : Option String) : clampLanguage x ∈ validLanguages := by
  cases x with
  | none => decide
  | some v =>
    by_cases h : v ≠ "" ∧ pyUpper v ∈ validLanguages
    · have : clampLanguage (some v) = pyUpper v := by simp [clampLanguage, h.1, h.2]
      rw [this]; exact h.2
    · have : clampLanguage (some v) = "ZH-HK" := by simp [clampLanguage, h]
      rw [this]; decide

/-- The clamped status is always in the fixed set. -/
theorem clampStatus_mem (x : Option String) : clampStatus x ∈ validStatuses := by
  cases x with
  | none => decide
  | some v =>
    by_cases h : v ≠ "" ∧ pyUpper v ∈ validStatuses
    · have : clampStatus (some v) = pyUpper v := by simp [clampStatus, h.1, h.2]
      rw [this]; exact h.2
    · have : clampStatus (some v) = "UPCOMING" := by simp [clampStatus, h]
      rw [this]; decide

/-- When the try-block body produced a path, a nonempty kept list was
persisted successfully with exactly that path. -/
theorem pipeline_ok_some (env : RunEnv) (p : String)
    (h : pipeline env = Except.ok (some p)) :
    ∃ kept, kept ≠ [] ∧ env.persistResult kept = Except.ok p := by
  cases hs : env.scrapeResult with
  | error msg => simp [pipeline, hs] at h
  | ok events =>
    simp only [pipeline, hs] at h
    cases hd : deduplicate_eventsE (fun e => env.dupCheck e env.existing)
        (List.map (validate_event env.sourceName env.nowIso) events) with
    | error msg => simp [hd] at h
    | ok kd =>
      obtain ⟨kept, d⟩ := kd
      simp only [hd] at h
      cases hk : kept.isEmpty with
      | true => simp [hk] at h
      | false =>
        simp only [hk, Bool.false_eq_true, if_false] at h
        cases hp : env.persistResult kept with
        | error msg => simp [hp] at h
        | ok q =>
          simp only [hp] at h
          have hq : q = p := by simpa using h
          refine ⟨kept, ?_, by rw [hp, hq]⟩
          intro hnil
          rw [hnil] at hk
          simp at hk

/-- Evaluation of the header loop when every present rate-limit header
value is integer-parseable. -/
theorem checkHeaders_eval (hs : List (String × String)) :
    ∀ names : List String,
      (names.all (fun n =>
        match headerGet hs n with
        | some v => (pyInt v).isSome
        | none => true)) = true →
      checkHeaders hs names = some (names.any (headerZero hs)) := by
  intro names
  induction names with
  | nil => intro _; rfl
  | cons n rest ih =>
    intro hok
    rw [List.all_cons, Bool.and_eq_true] at hok
    unfold checkHeaders
    cases hg : headerGet hs n with
    | none =>
      rw [ih hok.2]
      simp [List.any_cons, headerZero, hg]
    | some v =>
      have hpi : (pyInt v).isSome = true := by
        have := hok.1
        rw [hg] at this
        exact this
      cases hpv : pyInt v with
      | none => rw [hpv] at hpi; simp at hpi
      | some k =>
        by_cases hk : k = 0
        · subst hk
          simp [hpv, List.any_cons, headerZero, hg]
        · have hz : headerZero hs n = false := by
            simp [headerZero, hg, hpv, hk]
          simp only [hpv, hk, if_false, if_neg hk]
          rw [ih hok.2]
          simp [List.any_cons, hz]

/-! Claim theorems. -/

/-- C5: `should_update` returns true when no prior output file exists;
otherwise it returns true exactly when the elapsed time since the newest
prior output file exceeds the frequency's threshold (HOURLY 1 hour, DAILY
24 hours, WEEKLY 7 days, MONTHLY 30 days); in particular it is false
immediately after a DAILY run completes and true once elapsed time exceeds
24 hours, and CUSTOM always returns true (the final default branch of the
chain also returns true; for the closed frequency enum it is unreachable,
as in the Python `Enum`). -/
theorem should_update_spec :
    (∀ freq now, should_update freq none now = true)
    ∧ (∀ last now, should_update UpdateFrequency.HOURLY (some last) now =
        decide (now - last > 3600))
    ∧ (∀ last now, should_update UpdateFrequency.DAILY (some last) now =
        decide (now - last > 86400))
    ∧ (∀ last now, should_update UpdateFrequency.WEEKLY (some last) now =
        decide (now - last > 604800))
    ∧ (∀ last now, should_update UpdateFrequency.MONTHLY (some last) now =
        decide (now - last > 2592000))
    ∧ (∀ last now, should_update UpdateFrequency.CUSTOM (some last) now = true)
    ∧ (∀ last, should_update UpdateFrequency.DAILY (some last) last = false)
    ∧ (∀ last, should_update UpdateFrequency.DAILY (some last) (last + 86401) = true) := by
  refine ⟨fun freq now => rfl, fun last now => rfl, fun last now => rfl,
    fun last now => rfl, fun last now => rfl, fun last now => rfl, ?_, ?_⟩
  · intro last
    simp [should_update]
  · intro last
    simp [should_update]

/-- C6: with the persisted output of a first deduplication added to the
existing set, a second deduplication of the same new items keeps nothing
and counts every input as a duplicate.  `is_duplicate_event` is modelled
from the spec as an any-match over an equivalence check; the hypothesis is
that the check is reflexive (an item matches itself), which "equivalence
check" implies and which determinism of the modelled function already
makes meaningful. -/
theorem deduplicate_idempotent {α : Type} (eqv : α → α → Bool)
    (hrefl : ∀ a, eqv a a = true) (existing newEvents : List α) :
    deduplicate_events
      (fun e => is_duplicate_event eqv e
        (existing ++
          (deduplicate_events (fun e2 => is_duplicate_event eqv e2 existing) newEvents).1))
      newEvents
    = ([], newEvents.length) := by
  have hall : ∀ e ∈ newEvents,
      is_duplicate_event eqv e
        (existing ++
          (deduplicate_events (fun e2 => is_duplicate_event eqv e2 existing) newEvents).1)
        = true := by
    intro e he
    show (existing ++
        (deduplicate_events (fun e2 => is_duplicate_event eqv e2 existing) newEvents).1).any
          (eqv e) = true
    rw [List.any_append]
    cases hdup : existing.any (eqv e) with
    | true => simp
    | false =>
      have hkept : e ∈ (deduplicate_events
          (fun e2 => is_duplicate_event eqv e2 existing) newEvents).1 := by
        rw [deduplicate_events_eq]
        refine List.mem_filter.mpr ⟨he, ?_⟩
        show (!is_duplicate_event eqv e existing) = true
        show (!existing.any (eqv e)) = true
        simp [hdup]
      have hany : ((deduplicate_events
          (fun e2 => is_duplicate_event eqv e2 existing) newEvents).1).any (eqv e) = true :=
        List.any_eq_true.mpr ⟨e, hkept, hrefl e⟩
      simp [hany]
  rw [deduplicate_events_eq]
  refine Prod.ext ?_ ?_
  · show List.filter _ newEvents = []
    rw [List.filter_eq_nil_iff]
    intro e he
    simp [hall e he]
  · show List.countP _ newEvents = newEvents.length
    rw [List.countP_eq_length]
    intro e he
    exact hall e he

/-- C6 witness: a concrete second-run deduplication that keeps nothing. -/
theorem deduplicate_idempotent_witness :
    deduplicate_events
      (fun e => is_duplicate_event (fun a b : Bool => a == b) e
        ([true] ++
          (deduplicate_events
            (fun e2 => is_duplicate_event (fun a b : Bool => a == b) e2 [true])
            [false, true]).1))
      [false, true]
    = ([], 2) :=
  deduplicate_idempotent (fun a b : Bool => a == b) (by decide) [true] [false, true]

/-- C7 counterexample: the static fetch variant performs no strategy
check at all — a scraper configured as API (a strategy differing from
STATIC) calling `get_page` proceeds straight to network access instead of
raising a usage error. -/
theorem get_page_guard_counterexample :
    ScraperType.API ≠ ScraperType.STATIC
    ∧ get_page_check ScraperType.API = FetchPrelude.networkAccess :=
  ⟨by decide, rfl⟩

/-- C7 amended: `get_dynamic_page` and `get_api_data` raise a usage
`ValueError` before any network access when called under a differing
strategy, while `get_page` performs no strategy check and proceeds to the
network for every configured strategy. -/
theorem fetch_guard_amended (t : ScraperType) :
    (t ≠ ScraperType.DYNAMIC → get_dynamic_page_check t =
        FetchPrelude.usageError "This method is only available for DYNAMIC scrapers")
    ∧ (t = ScraperType.DYNAMIC → get_dynamic_page_check t = FetchPrelude.networkAccess)
    ∧ (t ≠ ScraperType.API → get_api_data_check t =
        FetchPrelude.usageError "This method is only available for API scrapers")
    ∧ (t = ScraperType.API → get_api_data_check t = FetchPrelude.networkAccess)
    ∧ get_page_check t = FetchPrelude.networkAccess := by
  refine ⟨?_, ?_, ?_, ?_, rfl⟩ <;> intro h <;>
    simp [get_dynamic_page_check, get_api_data_check, h]

/-- C7 witness: a STATIC scraper calling the two guarded variants gets the
usage errors. -/
theorem fetch_guard_amended_witness :
    get_dynamic_page_check ScraperType.STATIC =
      FetchPrelude.usageError "This method is only available for DYNAMIC scrapers"
    ∧ get_api_data_check ScraperType.STATIC =
      FetchPrelude.usageError "This method is only available for API scrapers" :=
  ⟨(fetch_guard_amended ScraperType.STATIC).1 (by decide),
   (fetch_guard_amended ScraperType.STATIC).2.2.1 (by decide)⟩

/-- C8: for a DYNAMIC scraper whose schedule gate passed, the finally
block tears the browser session down on every exit path, so the
`selenium_driver` field is `None` when `run` returns. -/
theorem run_closes_driver (freq : UpdateFrequency) (latest : Option Int) (now : Int)
    (driver : Option Unit) (env : RunEnv)
    (hgate : should_update freq latest now = true) :
    (runScraper freq latest now ScraperType.DYNAMIC driver env).2 = none := by
  simp [runScraper, hgate]

/-- C8 witness: a live session is gone after a concrete failing run. -/
theorem run_closes_driver_witness :
    (runScraper UpdateFrequency.DAILY none 0 ScraperType.DYNAMIC (some ()) envScrapeFail).2
      = none :=
  run_closes_driver UpdateFrequency.DAILY none 0 (some ()) envScrapeFail rfl

/-- C10: `deduplicate_events` partitions its input exactly — the kept list
is the in-order sublist of non-duplicates (each kept item the unchanged
input item), the duplicate count is the number of check-positive items,
and kept length plus duplicate count equals the input length. -/
theorem deduplicate_partition {α : Type} (check : α → Bool) (l : List α) :
    (deduplicate_events check l).1 = l.filter (fun e => !check e)
    ∧ (deduplicate_events check l).1.Sublist l
    ∧ (deduplicate_events check l).2 = l.countP check
    ∧ (deduplicate_events check l).1.length + (deduplicate_events check l).2 = l.length
    ∧ (deduplicate_events check l).1.all (fun e => !check e) = true := by
  rw [deduplicate_events_eq]
  refine ⟨rfl, List.filter_sublist l, rfl, ?_, ?_⟩
  · show (List.filter (fun e => !check e) l).length + List.countP check l = l.length
    rw [← List.countP_eq_length_filter]
    induction l with
    | nil => rfl
    | cons e rest ih =>
      rw [List.countP_cons, List.countP_cons]
      cases h : check e <;> simp [h] <;> omega
  · rw [List.all_eq_true]
    intro e he
    exact (List.mem_filter.mp he).2

/-- C1 counterexample: on an entirely empty raw mapping both construction
attempts fail, yet the returned mapping is not the raw mapping unmodified —
the in-place default synthesis is visible in the returned value. -/
theorem validate_event_counterexample :
    mkJobFairEvent emptyRaw = none
    ∧ mkJobFairEvent (fixEvent "SourceA" nowIso0 emptyRaw) = none
    ∧ validate_event "SourceA" nowIso0 emptyRaw ≠ emptyRaw
    ∧ (validate_event "SourceA" nowIso0 emptyRaw).event_name
        = some "Unknown Event (SourceA)"
    ∧ (validate_event "SourceA" nowIso0 emptyRaw).start_datetime = some nowIso0
    ∧ (validate_event "SourceA" nowIso0 emptyRaw).venue_name = some "To be announced"
    ∧ (validate_event "SourceA" nowIso0 emptyRaw).organizer_name = some "SourceA" := by
  refine ⟨rfl, rfl, ?_, rfl, rfl, rfl, rfl⟩
  decide

/-- C1 amended: `validate_event` never raises (it is a total function);
it attempts strict construction, on failure synthesizes defaults for
exactly the four required fields that are missing or empty (event name
"Unknown Event (<source name>)", start time the current Hong Kong time,
venue name "To be announced", organizer the source name, all other fields
untouched) and retries once; if the retry also fails it returns the
mapping **with those synthesized defaults applied in place**, not the
original mapping unmodified. -/
theorem validate_event_amended (name nowIso : String) (e : RawEvent) :
    (∀ j, mkJobFairEvent e = some j → validate_event name nowIso e = j.toRaw)
    ∧ (mkJobFairEvent e = none →
        (∀ j, mkJobFairEvent (fixEvent name nowIso e) = some j →
           validate_event name nowIso e = j.toRaw)
        ∧ (mkJobFairEvent (fixEvent name nowIso e) = none →
           validate_event name nowIso e = fixEvent name nowIso e))
    ∧ (fixEvent name nowIso e).event_name =
        (if pyFalsy e.event_name then some ("Unknown Event (" ++ name ++ ")")
         else e.event_name)
    ∧ (fixEvent name nowIso e).start_datetime =
        (if pyFalsy e.start_datetime then some nowIso else e.start_datetime)
    ∧ (fixEvent name nowIso e).venue_name =
        (if pyFalsy e.venue_name then some "To be announced" else e.venue_name)
    ∧ (fixEvent name nowIso e).organizer_name =
        (if pyFalsy e.organizer_name then some name else e.organizer_name)
    ∧ (fixEvent name nowIso e).event_type = e.event_type
    ∧ (fixEvent name nowIso e).source_id = e.source_id
    ∧ (fixEvent name nowIso e).source_name = e.source_name
    ∧ (fixEvent name nowIso e).language = e.language
    ∧ (fixEvent name nowIso e).status = e.status := by
  refine ⟨?_, ?_, rfl, rfl, rfl, rfl, rfl, rfl, rfl, rfl, rfl⟩
  · intro j hj
    simp [validate_event, hj]
  · intro h0
    refine ⟨?_, ?_⟩
    · intro j hj
      simp [validate_event, h0, hj]
    · intro h1
      simp [validate_event, h0, h1]

/-- C1 witness: the amended degraded-return clause at a concrete input. -/
theorem validate_event_amended_witness :
    validate_event "SourceA" nowIso0 emptyRaw = fixEvent "SourceA" nowIso0 emptyRaw :=
  ((validate_event_amended "SourceA" nowIso0 emptyRaw).2.1 (by decide)).2 (by decide)

/-- C9 counterexample: a mapping whose required `event_type`, `source_id`
and `source_name` are missing fails both construction attempts, and the
degraded return of `validate_event` carries its out-of-set `language` and
`status` values through unchanged. -/
theorem degraded_language_counterexample :
    (validate_event "S" nowIso0 eBad).language = some "XX"
    ∧ "XX" ∉ validLanguages
    ∧ (validate_event "S" nowIso0 eBad).status = some "??"
    ∧ "??" ∉ validStatuses := by
  refine ⟨rfl, by decide, rfl, by decide⟩

/-- C9 amended: every event record produced by a successful construction —
strict, or after the default-synthesis repair (both paths go through the
same constructor) — has `language` in the fixed set and `status` in the
fixed set, and an invalid or missing input value silently maps to the
defaults ZH-HK and UPCOMING; only the degraded raw-return path can carry
other values. -/
theorem constructed_language_status_valid (e : RawEvent) (j : JobFairEvent)
    (h : mkJobFairEvent e = some j) :
    (j.language ∈ validLanguages ∧ j.status ∈ validStatuses)
    ∧ (e.language = none → j.language = "ZH-HK")
    ∧ (∀ v, e.language = some v → ¬(v ≠ "" ∧ pyUpper v ∈ validLanguages) →
        j.language = "ZH-HK")
    ∧ (e.status = none → j.status = "UPCOMING")
    ∧ (∀ v, e.status = some v → ¬(v ≠ "" ∧ pyUpper v ∈ validStatuses) →
        j.status = "UPCOMING") := by
  obtain ⟨hl, hs⟩ := mk_fields e j h
  refine ⟨⟨hl ▸ clampLanguage_mem e.language, hs ▸ clampStatus_mem e.status⟩, ?_, ?_, ?_, ?_⟩
  · intro hnone
    rw [hl, hnone]
    rfl
  · intro v hv hbad
    rw [hl, hv]
    simp [clampLanguage, hbad]
  · intro hnone
    rw [hs, hnone]
    rfl
  · intro v hv hbad
    rw [hs, hv]
    simp [clampStatus, hbad]

/-- C9 witness: a concrete constructed record has in-set language and
status (its lower-case "en" input was clamped to "EN"). -/
theorem constructed_language_status_valid_witness :
    ("EN" : String) ∈ validLanguages ∧ ("UPCOMING" : String) ∈ validStatuses :=
  (constructed_language_status_valid eGood jGood (by decide)).1

/-- C2: once the schedule gate has passed, `run` propagates no exception —
a skip returns `(none, driver)` untouched; an exception raised by driver
initialization, scraping, deduplication or persistence is caught and
mapped to `none`; "no new events" is `none`; and a `some` result is
exactly the path of a successfully persisted nonempty kept set.  The
three `none` meanings are indistinguishable in the return value. -/
theorem run_contract (freq : UpdateFrequency) (latest : Option Int) (now : Int)
    (t : ScraperType) (driver : Option Unit) (env : RunEnv) :
    (should_update freq latest now = false →
       runScraper freq latest now t driver env = (none, driver))
    ∧ (∀ msg, env.scrapeResult = Except.error msg → pipeline env = Except.error msg)
    ∧ (should_update freq latest now = true →
        (∀ msg, tryInit t driver env = Except.error msg →
           (runScraper freq latest now t driver env).1 = none)
        ∧ (∀ d msg, tryInit t driver env = Except.ok d →
            pipeline env = Except.error msg →
            (runScraper freq latest now t driver env).1 = none)
        ∧ (∀ d, tryInit t driver env = Except.ok d → pipeline env = Except.ok none →
            (runScraper freq latest now t driver env).1 = none)
        ∧ (∀ d p, tryInit t driver env = Except.ok d → pipeline env = Except.ok (some p) →
            (runScraper freq latest now t driver env).1 = some p))
    ∧ (∀ p, (runScraper freq latest now t driver env).1 = some p →
        ∃ kept, kept ≠ [] ∧ env.persistResult kept = Except.ok p) := by
  refine ⟨?_, ?_, ?_, ?_⟩
  · intro hgate
    simp [runScraper, hgate]
  · intro msg hmsg
    simp [pipeline, hmsg]
  · intro hgate
    refine ⟨?_, ?_, ?_, ?_⟩
    · intro msg hinit
      simp [runScraper, hgate, hinit]
    · intro d msg hinit hpipe
      simp [runScraper, hgate, hinit, hpipe]
    · intro d hinit hpipe
      simp [runScraper, hgate, hinit, hpipe]
    · intro d p hinit hpipe
      simp [runScraper, hgate, hinit, hpipe]
  · intro p hp
    by_cases hgate : should_update freq latest now = false
    · simp [runScraper, hgate] at hp
    · rw [Bool.not_eq_false] at hgate
      cases hinit : tryInit t driver env with
      | error msg => simp [runScraper, hgate, hinit] at hp
      | ok d =>
        simp only [runScraper, hgate, hinit, Bool.true_eq_false, if_false] at hp
        cases hpipe : pipeline env with
        | error msg => simp [hpipe] at hp
        | ok r =>
          simp only [hpipe] at hp
          cases r with
          | none => simp at hp
          | some q =>
            have : q = p := by simpa using hp
            exact this ▸ pipeline_ok_some env q hpipe

/-- C2 witness: a failing scrape is caught and reported as `none`. -/
theorem run_contract_witness :
    (runScraper UpdateFrequency.DAILY none 0 ScraperType.STATIC none envScrapeFail).1
      = none := by
  have h := run_contract UpdateFrequency.DAILY none 0 ScraperType.STATIC none envScrapeFail
  have hp : pipeline envScrapeFail = Except.error "boom" := h.2.1 "boom" rfl
  exact (h.2.2.1 rfl).2.1 none "boom" rfl hp

/-- C3 counterexample: the claim's iff fails — a 200 JSON response whose
rate-limit header holds "00" (not the literal "0") is classified as
rate-limited, because the code tests `int(value) == 0`; and the function
is not total: a non-integer header value makes `int()` raise. -/
theorem is_rate_limited_counterexample :
    is_rate_limited respZeroPad = some true
    ∧ claimed_rate_limited respZeroPad = false
    ∧ is_rate_limited respBadHeader = none := by
  refine ⟨by decide, by decide, by decide⟩

/-- C3 amended: on every response whose present rate-limit headers hold
integer-parseable values, `is_rate_limited` returns exactly: status is 429
or 403, or some rate-limit header value parses as the integer 0, or the
content type starts with text/html and the rendered text contains a
blocking phrase; a malformed rate-limit header value instead raises
`ValueError` out of the function.  The claim's concrete instances hold: a
429 response is rate-limited, a 200 HTML response containing "too many
requests" is rate-limited, and a normal 200 JSON response is not. -/
theorem is_rate_limited_amended :
    (∀ r : Response, headersParseable r.headers = true →
       is_rate_limited r = some (amended_rate_limited r))
    ∧ is_rate_limited resp429 = some true
    ∧ is_rate_limited respHtml = some true
    ∧ is_rate_limited respJson = some false := by
  refine ⟨?_, by decide, by decide, by decide⟩
  intro r hok
  unfold is_rate_limited amended_rate_limited
  by_cases hs : r.status_code = 429 ∨ r.status_code = 403
  · rw [if_pos hs]
    have hb : (r.status_code == 429 || r.status_code == 403) = true := by
      rcases hs with h | h <;> simp [h]
    rw [hb]
    simp
  · rw [if_neg hs]
    push_neg at hs
    have hb : (r.status_code == 429 || r.status_code == 403) = false := by
      simp [hs.1, hs.2]
    have hok2 : (rlHeaderNames.all (fun n =>
        match headerGet r.headers n with
        | some v => (pyInt v).isSome
        | none => true)) = true := hok
    rw [checkHeaders_eval r.headers rlHeaderNames hok2]
    cases ha : rlHeaderNames.any (headerZero r.headers) with
    | true => simp [hb]
    | false => simp [hb]

/-- C3 witness: the amended classification applied to the padded-zero
response. -/
theorem is_rate_limited_amended_witness :
    is_rate_limited respZeroPad = some (amended_rate_limited respZeroPad) :=
  is_rate_limited_amended.1 respZeroPad (by decide)

/-- C4 counterexample: a value containing a `T` separator and an explicit
(negative) offset does not pass through unchanged — the first branch only
tests for a `+` character, so this value is re-parsed and re-serialized
with seconds inserted. -/
theorem validate_datetime_counterexample :
    py_validate_datetime "2024-03-15T10:00-05:00" = "2024-03-15T10:00:00-05:00"
    ∧ hasChar "2024-03-15T10:00-05:00" 'T' = true
    ∧ hasSub "-05:00".toList "2024-03-15T10:00-05:00".toList = true
    ∧ "2024-03-15T10:00-05:00" ≠ "2024-03-15T10:00:00-05:00" := by
  refine ⟨by decide, by decide, by decide, by decide⟩

/-- C4 amended: values containing both a `T` and a `+` character pass
through unchanged (an explicit negative offset does not trigger this
branch and may be re-serialized); otherwise the value — with every literal
`Z` replaced by `+00:00` — is ISO-parsed, and a naive parse result is
localized to the Asia/Hong_Kong zone (+08:00), yielding a timezone-aware
value; if parsing fails on a 10-character hyphenated value the result is
the value with `T00:00:00+08:00` appended; any other unparseable value
passes through unchanged; in particular a bare date "2024-03-15"
normalizes to "2024-03-15T00:00:00+08:00". -/
theorem validate_datetime_amended :
    (py_validate_datetime "" = "")
    ∧ (∀ v : String, v ≠ "" → hasChar v 'T' = true → hasChar v '+' = true →
        py_validate_datetime v = v)
    ∧ (∀ (v : String) (dt : PyDateTime), v ≠ "" →
        ¬(hasChar v 'T' = true ∧ hasChar v '+' = true) →
        fromisoformat (String.mk (replaceZ v.toList)) = some dt →
        py_validate_datetime v = isoformat (hkLocalize dt))
    ∧ (∀ dt : PyDateTime, dt.tzOffsetMinutes = none →
        hkLocalize dt = { dt with tzOffsetMinutes := some 480 })
    ∧ (∀ (dt : PyDateTime) (m : Int), dt.tzOffsetMinutes = some m → hkLocalize dt = dt)
    ∧ (∀ v : String, v ≠ "" → ¬(hasChar v 'T' = true ∧ hasChar v '+' = true) →
        fromisoformat (String.mk (replaceZ v.toList)) = none →
        v.length = 10 → hasChar v '-' = true →
        py_validate_datetime v = v ++ "T00:00:00+08:00")
    ∧ (∀ v : String, v ≠ "" → ¬(hasChar v 'T' = true ∧ hasChar v '+' = true) →
        fromisoformat (String.mk (replaceZ v.toList)) = none →
        ¬(v.length = 10 ∧ hasChar v '-' = true) →
        py_validate_datetime v = v)
    ∧ py_validate_datetime "2024-03-15" = "2024-03-15T00:00:00+08:00" := by
  refine ⟨rfl, ?_, ?_, ?_, ?_, ?_, ?_, by decide⟩
  · intro v h1 hT hP
    unfold py_validate_datetime
    rw [if_neg h1, if_pos ⟨hT, hP⟩]
  · intro v dt h1 hTP hparse
    unfold py_validate_datetime
    rw [if_neg h1, if_neg hTP, hparse]
  · intro dt h
    unfold hkLocalize
    rw [h]
  · intro dt m h
    unfold hkLocalize
    rw [h]
  · intro v h1 hTP hparse hlen hdash
    unfold py_validate_datetime
    rw [if_neg h1, if_neg hTP, hparse, if_pos ⟨hlen, hdash⟩]
  · intro v h1 hTP hparse hbare
    unfold py_validate_datetime
    rw [if_neg h1, if_neg hTP, hparse, if_neg hbare]

/-- C4 witness: a value with both `T` and `+` passes through unchanged. -/
theorem validate_datetime_amended_witness :
    py_validate_datetime "2024-03-15T09:30:00+08:00" = "2024-03-15T09:30:00+08:00" :=
  validate_datetime_amended.2.1 "2024-03-15T09:30:00+08:00" (by decide) (by decide) (by decide)

end HKJF
